import Mathlib

/-!
Shallow embedding of the sakiko value-wrapper library (Option, Result,
Future, Lazy) and proofs about its documented behaviour.

Modelling conventions:
- a JavaScript nullable field of type T | null is an `Option α` whose
  `none` is the JavaScript null;
- a JavaScript Error object is a `JsError`, carrying only its message;
- code that can throw returns `Except JsError _`;
- JavaScript truthiness of a payload is supplied by the `JSTruthy` class,
  because Result.isOk and Result.isErr test the stored value with `!!`.
-/

/-- Model of a JavaScript Error object: only the message is relevant here. -/
structure JsError where
  message : String
deriving DecidableEq

/-- Model of toError from src/utils.ts: an Error instance passes through
unchanged, a plain string is wrapped into an Error carrying it as message. -/
def toError : Sum JsError String → JsError
  | Sum.inl e => e
  | Sum.inr s => JsError.mk s

/-- JavaScript truthiness of a payload type. -/
class JSTruthy (α : Type) where
  truthy : α → Bool

instance : JSTruthy Int where
  truthy n := n != 0

instance : JSTruthy String where
  truthy s := s != ""

instance : JSTruthy Bool where
  truthy b := b

/-- Truthiness of a nullable JavaScript value: null is falsy, any other
value has its own truthiness. -/
def jsTruthyOpt {α : Type} [JSTruthy α] : Option α → Bool
  | Option.none => false
  | Option.some v => JSTruthy.truthy v

/-- Model of the Result class of src/result.ts: two nullable fields,
`value : T | null` and `error : E | null`. -/
structure Result' (α : Type) where
  value : Option α
  error : Option JsError
deriving DecidableEq

/-- Model of the Result constructor: the value is stored as given; the error
argument (an Error, a string, or null) is normalized with toError unless it
is null. -/
def Result'.mkNorm {α : Type} (value : Option α) (error : Option (Sum JsError String)) :
    Result' α :=
  Result'.mk value (error.map toError)

/-- Model of Result.ok: new Result(value, null). -/
def Result'.ok {α : Type} (v : α) : Result' α :=
  Result'.mkNorm (Option.some v) Option.none

/-- Model of Result.err: new Result(null, toError(error)). -/
def Result'.err {α : Type} (e : Sum JsError String) : Result' α :=
  Result'.mkNorm Option.none (Option.some (Sum.inl (toError e)))

/-- Model of Result.from: new Result(value, error), error already an Error
object or null. -/
def Result'.fromVal {α : Type} (value : Option α) (error : Option JsError) : Result' α :=
  Result'.mkNorm value (error.map Sum.inl)

/-- Model of Result.isOk: !!this.value && !this.error — it tests truthiness
of the stored value, not an explicit discriminant. -/
def Result'.isOk {α : Type} [JSTruthy α] (r : Result' α) : Bool :=
  jsTruthyOpt r.value && r.error.isNone

/-- Model of Result.isErr: !this.value && !!this.error. -/
def Result'.isErr {α : Type} [JSTruthy α] (r : Result' α) : Bool :=
  !jsTruthyOpt r.value && r.error.isSome

/-- Model of Result.unwrap: if (this.error) throw this.error; return
this.value as T. The error thrown is the stored error object itself; the
returned value is the raw value field. -/
def Result'.unwrap {α : Type} (r : Result' α) : Except JsError (Option α) :=
  match r.error with
  | Option.some e => Except.error e
  | Option.none => Except.ok r.value

/-- Model of Result.isOkAnd; the predicate receives the raw value field. -/
def Result'.isOkAnd {α : Type} [JSTruthy α] (r : Result' α) (p : Option α → Bool) : Bool :=
  r.isOk && p r.value

/-- Model of Result.isErrAnd; the predicate receives the raw error field. -/
def Result'.isErrAnd {α : Type} [JSTruthy α] (r : Result' α) (p : Option JsError → Bool) : Bool :=
  r.isErr && p r.error

/-- Model of Result.map: this.isOk() ? new Result(fn(this.value), null)
: new Result(null, this.error); the callback receives the raw value field
and may itself produce null. -/
def Result'.map {α β : Type} [JSTruthy α] (r : Result' α) (fn : Option α → Option β) :
    Result' β :=
  if r.isOk then Result'.mkNorm (fn r.value) Option.none
  else Result'.mkNorm Option.none (r.error.map Sum.inl)

/-- Model of Result.mapErr. -/
def Result'.mapErr {α : Type} [JSTruthy α] (r : Result' α) (fn : Option JsError → JsError) :
    Result' α :=
  if r.isErr then Result'.mkNorm Option.none (Option.some (Sum.inl (fn r.error)))
  else Result'.mkNorm r.value Option.none

/-- Model of Result.inspect. -/
def Result'.inspect {α : Type} [JSTruthy α] (r : Result' α) (p : Option α → Bool) :
    Result' α :=
  if r.isOkAnd p then r else Result'.mkNorm Option.none (r.error.map Sum.inl)

/-- Model of Result.inspectErr. -/
def Result'.inspectErr {α : Type} [JSTruthy α] (r : Result' α) (p : Option JsError → Bool) :
    Result' α :=
  if r.isErrAnd p then r else Result'.mkNorm r.value Option.none

/-- Model of Result.and. -/
def Result'.and {α β : Type} [JSTruthy α] (r : Result' α) (other : Result' β) : Result' β :=
  if r.isOk then other else Result'.mkNorm Option.none (r.error.map Sum.inl)

/-- Model of Result.andThen. -/
def Result'.andThen {α β : Type} [JSTruthy α] (r : Result' α) (fn : Option α → Result' β) :
    Result' β :=
  if r.isOk then fn r.value else Result'.mkNorm Option.none (r.error.map Sum.inl)

/-- Model of Result.or. -/
def Result'.or {α : Type} [JSTruthy α] (r : Result' α) (other : Result' α) : Result' α :=
  if r.isOk then r else other

/-- Model of Result.orElse. -/
def Result'.orElse {α : Type} [JSTruthy α] (r : Result' α) (fn : Unit → Result' α) :
    Result' α :=
  if r.isOk then r else fn ()

/-- Model of the JavaScript undefined value, for payload types that can hold
it. In the Option model the outer Option's none is the JavaScript null, so a
stored undefined is a present payload: the strict check value !== null of
Option.isSome treats undefined as present. -/
inductive JSUndefined where
  | undef
deriving DecidableEq

/-- Model of the Option class of src/option.ts: one nullable field
`value : T | null`. -/
structure Option' (α : Type) where
  value : Option α
deriving DecidableEq

/-- Model of Option.some: new Option(value). -/
def Option'.some {α : Type} (v : α) : Option' α :=
  Option'.mk (Option.some v)

/-- Model of Option.none: new Option(null). -/
def Option'.none {α : Type} : Option' α :=
  Option'.mk Option.none

/-- Model of Option.from: new Option(value), the value stored as given. -/
def Option'.fromVal {α : Type} (v : Option α) : Option' α :=
  Option'.mk v

/-- Model of Option.isSome: this.value !== null. -/
def Option'.isSome {α : Type} (o : Option' α) : Bool :=
  o.value.isSome

/-- Model of Option.isNone: this.value === null. -/
def Option'.isNone {α : Type} (o : Option' α) : Bool :=
  o.value.isNone

/-- Model of Option.unwrap: if (this.isNone()) throw new Error('Cannot
unwrap None.'); return this.value as T. -/
def Option'.unwrap {α : Type} (o : Option' α) : Except JsError α :=
  match o.value with
  | Option.none => Except.error (JsError.mk "Cannot unwrap None.")
  | Option.some v => Except.ok v

/-- Model of Option.map: this.isSome() ? new Option(fn(this.value as T))
: new Option(null); the callback may itself return null, which is then
stored and makes the produced Option a None. -/
def Option'.map {α β : Type} (o : Option' α) (fn : α → Option β) : Option' β :=
  match o.value with
  | Option.some v => Option'.mk (fn v)
  | Option.none => Option'.mk Option.none

/-- Model of Option.xor: this.isSome() !== option.isSome() ? this
: new Option(null). Note that the receiver `this` is returned whenever the
two discriminants differ, even when the receiver is the None one. -/
def Option'.xor {α : Type} (o other : Option' α) : Option' α :=
  if o.isSome != other.isSome then o else Option'.mk Option.none

/-- Discriminant of the Future class of src/future.ts (the `state` field). -/
inductive FutureTag where
  | Pending
  | Fulfilled
  | Rejected
deriving DecidableEq

/-- One call of the executor's resolve or reject hook, with its argument. -/
inductive SettleEvent (α ε : Type) where
  | resolveEv (v : α)
  | rejectEv (e : ε)

/-- Effect of one hook call on the discriminant: each hook assigns its own
terminal tag unconditionally (this.state = 'Fulfilled' or 'Rejected', with
no check that the Future is still Pending). -/
def hookStep {α ε : Type} : FutureTag → SettleEvent α ε → FutureTag :=
  fun _ ev =>
    match ev with
    | SettleEvent.resolveEv _ => FutureTag.Fulfilled
    | SettleEvent.rejectEv _ => FutureTag.Rejected

/-- Discriminant after the constructor (which sets state = 'Pending') and a
sequence of hook calls made by the executor. -/
def runHooks {α ε : Type} (es : List (SettleEvent α ε)) : FutureTag :=
  es.foldl hookStep FutureTag.Pending

/-- Model of Future.isPending: this.state === 'Pending'. -/
def FutureTag.isPending (t : FutureTag) : Bool :=
  t == FutureTag.Pending

/-- Model of Future.isFulfilled: this.state === 'Fulfilled'. -/
def FutureTag.isFulfilled (t : FutureTag) : Bool :=
  t == FutureTag.Fulfilled

/-- Model of Future.isRejected: this.state === 'Rejected'. -/
def FutureTag.isRejected (t : FutureTag) : Bool :=
  t == FutureTag.Rejected

/-- Settlement of the underlying native promise under the same hook calls:
only the first resolve or reject call takes effect, later calls are no-ops
on the native settlement. -/
def nativeSettle {α ε : Type} : List (SettleEvent α ε) → Option (Except ε α)
  | [] => Option.none
  | SettleEvent.resolveEv v :: _ => Option.some (Except.ok v)
  | SettleEvent.rejectEv e :: _ => Option.some (Except.error e)

/-- Terminal settlement of a native promise: fulfilled with a value or
rejected with an error. -/
inductive Settled (α : Type) where
  | fulfilled (v : α)
  | rejected (e : JsError)
deriving DecidableEq

/-- Fulfillment test of a settlement. -/
def Settled.isFulfilledB {α : Type} : Settled α → Bool
  | Settled.fulfilled _ => true
  | Settled.rejected _ => false

/-- Model of promise.then(onF, onR) observed at settlement: the handler for
the matching side runs; its return value fulfills the derived promise, and a
throw inside it rejects the derived promise. -/
def promiseThen {α β : Type} (s : Settled α) (onF : α → Except JsError β)
    (onR : JsError → Except JsError β) : Settled β :=
  match s with
  | Settled.fulfilled v =>
    match onF v with
    | Except.ok b => Settled.fulfilled b
    | Except.error e => Settled.rejected e
  | Settled.rejected e =>
    match onR e with
    | Except.ok b => Settled.fulfilled b
    | Except.error e2 => Settled.rejected e2

/-- Model of Future.result: this.then(value => Result.ok(value), error =>
Result.err(error)). Both handlers are total: neither Result.ok nor
Result.err can throw. -/
def futureResult {α : Type} (s : Settled α) : Settled (Result' α) :=
  promiseThen s (fun v => Except.ok (Result'.ok v))
    (fun e => Except.ok (Result'.err (Sum.inl e)))

/-- Model of the Lazy class of src/lazy.ts. The producer is modelled as
fn : Nat → α where fn k is the value its k-th invocation returns, so a
non-deterministic producer is expressible; calls counts how often the
producer has been invoked; value none models the NOT_COMPUTED sentinel. -/
structure Lazy (α : Type) where
  fn : Nat → α
  calls : Nat
  value : Option α

/-- Model of the Lazy constructor: cache initialized to NOT_COMPUTED. -/
def Lazy.make {α : Type} (fn : Nat → α) : Lazy α :=
  Lazy.mk fn 0 Option.none

/-- Model of Lazy.get: if the cache is the NOT_COMPUTED sentinel, invoke the
producer, store its result and return it; otherwise return the cache
without invoking the producer. -/
def Lazy.get {α : Type} (s : Lazy α) : α × Lazy α :=
  match s.value with
  | Option.none => (s.fn s.calls, Lazy.mk s.fn (s.calls + 1) (Option.some (s.fn s.calls)))
  | Option.some v => (v, s)

/-- Sequence of n successive get() calls: the list of returned values and
the final state. -/
def Lazy.runGets {α : Type} : Nat → Lazy α → List α × Lazy α
  | 0, s => ([], s)
  | Nat.succ n, s =>
    let p := Lazy.get s
    let q := Lazy.runGets n p.2
    (p.1 :: q.1, q.2)

/-- C1: the claim states that Result.ok(v).isOk() is true and isErr() is
false for every v including the falsy 0, "" and false, with the state
tracked by an explicit discriminant. The code evaluated at the failing
inputs: isOk() tests truthiness of the stored value, so Result.ok(0),
Result.ok("") and Result.ok(false) all report isOk() == false (and
isErr() == false as well), while Result.ok(1) reports isOk() == true. -/
theorem c1_ok_falsy_misreported :
    (Result'.ok (0 : Int)).isOk = false
  ∧ (Result'.ok (0 : Int)).isErr = false
  ∧ (Result'.ok "").isOk = false
  ∧ (Result'.ok false).isOk = false
  ∧ (Result'.ok (1 : Int)).isOk = true := by
  decide

/-- C2: the claim states that xor returns the Present operand when exactly
one side is Present, so Option.none().xor(Option.some(1)).unwrap() == 1.
The code evaluated at the failing input: xor returns the receiver `this`
whenever the two discriminants differ, so none().xor(some(1)) is the None
and unwrap() throws, contradicting xor's own documentation; the both-Some
collapse to None does hold. -/
theorem c2_xor_counterexample :
    ((Option'.none : Option' Int).xor (Option'.some 1)).isNone = true
  ∧ ((Option'.none : Option' Int).xor (Option'.some 1)).unwrap
      = Except.error (JsError.mk "Cannot unwrap None.")
  ∧ ((Option'.some (1 : Int)).xor (Option'.some 2)).isNone = true := by
  exact ⟨rfl, rfl, rfl⟩

/-- C4 counterexample: the claimed exactly-one-state invariant fails:
Result.from(1, Error("e")) populates both fields, and map over Result.ok(0)
(whose truthiness-based isOk() is false) yields an instance whose two
fields are both null. -/
theorem c4_both_states_counterexample :
    (Result'.fromVal (Option.some (1 : Int)) (Option.some (JsError.mk "e"))).value
      = Option.some 1
  ∧ (Result'.fromVal (Option.some (1 : Int)) (Option.some (JsError.mk "e"))).error
      = Option.some (JsError.mk "e")
  ∧ ((Result'.ok (0 : Int)).map (fun v => v)).value = Option.none
  ∧ ((Result'.ok (0 : Int)).map (fun v => v)).error = Option.none := by
  refine ⟨rfl, rfl, ?_, ?_⟩ <;> decide

/-- C4 amended: Outcomes produced by ok and err are in exactly one state:
ok(v) stores the value with a null error, and err(e) stores a null value
with a non-null normalized error. The invariant does not extend to from,
which stores both arguments as given, nor to combinators applied to an Ok
holding a falsy payload. -/
theorem c4_ok_err_exactly_one (α : Type) (v : α) (e : Sum JsError String) :
    (Result'.ok v).value = Option.some v
  ∧ (Result'.ok v).error = Option.none
  ∧ (Result'.err e : Result' α).value = Option.none
  ∧ (Result'.err e : Result' α).error = Option.some (toError e) := by
  exact ⟨rfl, rfl, rfl, rfl⟩

/-- C10: Result.ok(v).unwrap() returns v without throwing for every v,
including the falsy values: unwrap branches on the stored error field,
which ok leaves null, independently of the truthiness-based isOk()
discriminant — witnessed by ok(0), where isOk() is false yet unwrap still
returns 0. -/
theorem c10_unwrap_ok_returns_value :
    (∀ (α : Type) (v : α), (Result'.ok v).unwrap = Except.ok (Option.some v))
  ∧ (Result'.ok (0 : Int)).unwrap = Except.ok (Option.some 0)
  ∧ (Result'.ok (0 : Int)).isOk = false := by
  refine ⟨fun α v => rfl, rfl, by decide⟩

/-- C5: Result.unwrap returns the stored value when the Outcome is Ok and
re-throws exactly the stored, already-normalized error object when it is
Err; in particular Result.err("msg").unwrap() throws an error whose message
equals "msg". -/
theorem c5_unwrap_spec {α : Type} [JSTruthy α] (r : Result' α) :
    (r.isOk = true → r.unwrap = Except.ok r.value)
  ∧ (∀ e, r.isErr = true → r.error = Option.some e → r.unwrap = Except.error e)
  ∧ (Result'.err (Sum.inr "msg") : Result' α).unwrap = Except.error (JsError.mk "msg") := by
  obtain ⟨rv, re⟩ := r
  refine ⟨?_, ?_, rfl⟩
  · intro h
    simp only [Result'.isOk, Bool.and_eq_true, Option.isNone_iff_eq_none] at h
    obtain ⟨-, h2⟩ := h
    subst h2
    rfl
  · intro e _ he
    have h3 : re = Option.some e := he
    subst h3
    rfl

/-- C5 witness: the theorem applied to Result.ok(1) and to
Result.err("msg") at type Int, discharging the hypotheses there. -/
theorem c5_unwrap_spec_witness :
    (Result'.ok (1 : Int)).unwrap = Except.ok (Result'.ok (1 : Int)).value
  ∧ (Result'.err (Sum.inr "msg") : Result' Int).unwrap
      = Except.error (JsError.mk "msg") := by
  refine ⟨(c5_unwrap_spec (Result'.ok (1 : Int))).1 (by decide), ?_⟩
  exact (c5_unwrap_spec (Result'.err (Sum.inr "msg") : Result' Int)).2.1
    (JsError.mk "msg") (by decide) (by decide)

/-- C6 counterexample: the claim states that Option.from(v) is Absent when
v is undefined, but isSome() tests value !== null with a strict comparison
and undefined is not null, so Option.from(undefined) reports Present and
unwrap() returns undefined. -/
theorem c6_from_undefined_counterexample :
    (Option'.fromVal (Option.some JSUndefined.undef)).isSome = true
  ∧ (Option'.fromVal (Option.some JSUndefined.undef)).unwrap
      = Except.ok JSUndefined.undef := by
  exact ⟨rfl, rfl⟩

/-- C6 amended: Option.from(v) yields Present exactly when v is not null
(undefined counts as a present payload), and for every non-null v,
from(v).isSome() is true and from(v).unwrap() returns v. -/
theorem c6_from_not_null {α : Type} (v : Option α) :
    (Option'.fromVal v).isSome = v.isSome
  ∧ (∀ x, v = Option.some x → (Option'.fromVal v).unwrap = Except.ok x) := by
  refine ⟨rfl, ?_⟩
  intro x hx
  subst hx
  rfl

/-- C6 witness: the amended theorem applied at v = some 5, discharging its
hypothesis there. -/
theorem c6_from_not_null_witness :
    (Option'.fromVal (Option.some (5 : Int))).isSome = (Option.some (5 : Int)).isSome
  ∧ (Option'.fromVal (Option.some (5 : Int))).unwrap = Except.ok (5 : Int) := by
  exact ⟨(c6_from_not_null (Option.some (5 : Int))).1,
    (c6_from_not_null (Option.some (5 : Int))).2 5 rfl⟩

/-- C8 counterexample: the composition law fails for a callback that
returns the absence sentinel. With o = some(1), fn = (_ => null) and
gn = (_ => 42), o.map(fn).map(gn) is Absent (the intermediate Option holds
null, so the second map never runs gn), but o.map(x => gn(fn(x))) is
Present and unwraps to 42. -/
theorem c8_map_composition_counterexample :
    (((Option'.some (1 : Int)).map (fun _ => (Option.none : Option Int))).map
        (fun b => (fun _ => Option.some (42 : Int)) (Option.some b))).isNone = true
  ∧ ((Option'.some (1 : Int)).map
        (fun a => (fun _ => Option.some (42 : Int))
          ((fun _ => (Option.none : Option Int)) a))).unwrap = Except.ok 42 := by
  exact ⟨rfl, rfl⟩

/-- C8 amended: the map composition law holds for callbacks that never
return the absence sentinel null, and an Absent optional maps to Absent
under any callbacks (both sides are Absent regardless of fn and gn, which
are never invoked). -/
theorem c8_map_composition {α β γ : Type} (o : Option' α) (f : α → β) (g : β → γ) :
    (o.map (fun a => Option.some (f a))).map (fun b => Option.some (g b))
      = o.map (fun a => Option.some (g (f a)))
  ∧ (∀ (fn : α → Option β) (gn : β → Option γ),
      ((Option'.none : Option' α).map fn).map gn = (Option'.none : Option' γ))
  ∧ (∀ (h : α → Option γ), (Option'.none : Option' α).map h = (Option'.none : Option' γ)) := by
  obtain ⟨v⟩ := o
  refine ⟨?_, ?_, ?_⟩
  · cases v <;> rfl
  · intro fn gn
    rfl
  · intro h
    rfl

/-- C3 counterexample: an executor that calls resolve(1) and then
reject(Error("boom")) leaves the discriminant Rejected even though the
native promise settled fulfilled with 1 on the first call: the later
reject-hook call is not a no-op on the discriminant, it overwrites it. -/
theorem c3_second_settlement_overwrites :
    runHooks [SettleEvent.resolveEv (1 : Int), SettleEvent.rejectEv (JsError.mk "boom")]
      = FutureTag.Rejected
  ∧ runHooks [(SettleEvent.resolveEv (1 : Int) : SettleEvent Int JsError)]
      = FutureTag.Fulfilled
  ∧ nativeSettle [SettleEvent.resolveEv (1 : Int), SettleEvent.rejectEv (JsError.mk "boom")]
      = Option.some (Except.ok 1) := by
  exact ⟨rfl, rfl, rfl⟩

/-- C3 amended: a freshly constructed Future reports isPending() == true;
the discriminant always equals the kind of the last hook call (so when the
executor settles exactly once, it transitions exactly once to the matching
terminal state); and the three discriminant queries are mutually exclusive
and total — exactly one is true at any time. A later hook call, however,
overwrites the discriminant rather than being a no-op. -/
theorem c3_tag_machine {α ε : Type} :
    (runHooks ([] : List (SettleEvent α ε))).isPending = true
  ∧ (∀ (es : List (SettleEvent α ε)) (v : α),
      runHooks (es ++ [SettleEvent.resolveEv v]) = FutureTag.Fulfilled)
  ∧ (∀ (es : List (SettleEvent α ε)) (e : ε),
      runHooks (es ++ [SettleEvent.rejectEv e]) = FutureTag.Rejected)
  ∧ (∀ t : FutureTag,
      (if t.isPending then 1 else 0) + (if t.isFulfilled then 1 else 0)
        + (if t.isRejected then 1 else 0) = 1) := by
  refine ⟨rfl, ?_, ?_, ?_⟩
  · intro es v
    simp only [runHooks, List.foldl_append]
    rfl
  · intro es e
    simp only [runHooks, List.foldl_append]
    rfl
  · intro t
    cases t <;> decide

/-- C7: Future.result() never rejects: for every settlement of the
underlying computation it fulfills with an Outcome, and that Outcome is
Ok(v) exactly when the computation fulfilled with v, and Err(e) exactly
when it rejected with e. -/
theorem c7_result_never_rejects {α : Type} (s : Settled α) :
    (futureResult s).isFulfilledB = true
  ∧ (∀ v : α, futureResult s = Settled.fulfilled (Result'.ok v) ↔ s = Settled.fulfilled v)
  ∧ (∀ e : JsError,
      futureResult s = Settled.fulfilled (Result'.err (Sum.inl e)) ↔ s = Settled.rejected e) := by
  cases s with
  | fulfilled v0 =>
    refine ⟨rfl, ?_, ?_⟩
    · intro v
      simp [futureResult, promiseThen, Result'.ok, Result'.err, Result'.mkNorm]
    · intro e
      simp [futureResult, promiseThen, Result'.ok, Result'.err, Result'.mkNorm, toError]
  | rejected e0 =>
    refine ⟨rfl, ?_, ?_⟩
    · intro v
      simp [futureResult, promiseThen, Result'.ok, Result'.err, Result'.mkNorm, toError]
    · intro e
      simp [futureResult, promiseThen, Result'.ok, Result'.err, Result'.mkNorm, toError]

/-- C7 witness: the theorem applied to a computation that fulfilled with 1,
with its equivalences discharged there. -/
theorem c7_result_never_rejects_witness :
    (futureResult (Settled.fulfilled (1 : Int))).isFulfilledB = true
  ∧ futureResult (Settled.fulfilled (1 : Int)) = Settled.fulfilled (Result'.ok 1) := by
  exact ⟨(c7_result_never_rejects (Settled.fulfilled (1 : Int))).1,
    ((c7_result_never_rejects (Settled.fulfilled (1 : Int))).2.1 1).mpr rfl⟩

/-- Helper for C9: once the cache holds a value, any number of further
get() calls returns that value and leaves the state unchanged. -/
theorem lazy_runGets_cached {α : Type} (fn : Nat → α) (c : Nat) (v : α) :
    ∀ n, Lazy.runGets n (Lazy.mk fn c (Option.some v))
      = (List.replicate n v, Lazy.mk fn c (Option.some v)) := by
  intro n
  induction n with
  | zero => rfl
  | succ n ih => simp [Lazy.runGets, Lazy.get, List.replicate, ih]

/-- C9: starting from a fresh Lazy, any positive number n of get() calls
invokes the producer exactly once (the call counter ends at 1), every call
returns the value of that first invocation, and the cache holds it — even
for a non-deterministic producer, modelled as returning fn k on its k-th
invocation. -/
theorem c9_lazy_single_evaluation {α : Type} (fn : Nat → α) (n : Nat) (h : 0 < n) :
    (Lazy.runGets n (Lazy.make fn)).1 = List.replicate n (fn 0)
  ∧ (Lazy.runGets n (Lazy.make fn)).2.calls = 1
  ∧ (Lazy.runGets n (Lazy.make fn)).2.value = Option.some (fn 0) := by
  cases n with
  | zero => exact absurd h (by decide)
  | succ m =>
    have hcached := lazy_runGets_cached fn 1 (fn 0) m
    refine ⟨?_, ?_, ?_⟩ <;>
      simp [Lazy.runGets, Lazy.make, Lazy.get, hcached, List.replicate]

/-- C9 witness: three get() calls on a Lazy whose producer would return a
different value on each invocation: all three calls return the first
invocation's value and the producer ran once. -/
theorem c9_lazy_single_evaluation_witness :
    (Lazy.runGets 3 (Lazy.make (fun k => (k : Int)))).1 = List.replicate 3 0
  ∧ (Lazy.runGets 3 (Lazy.make (fun k => (k : Int)))).2.calls = 1
  ∧ (Lazy.runGets 3 (Lazy.make (fun k => (k : Int)))).2.value = Option.some 0 := by
  exact c9_lazy_single_evaluation (fun k => (k : Int)) 3 (by decide)
